import Mathlib

set_option autoImplicit false

/-!
Shallow embedding of the stepruapp gateway server (src/server/index.js):
the session store, the fixed-window rate limiter, the request validator,
the error normalizer and the upstream error classifier, together with
theorems settling the specification claims about them.

JavaScript values are modelled by the inductive `Js`; timestamps
(`Date.now()` milliseconds) are natural numbers; the two process-wide
`Map`s (`authSessions`, `rateBuckets`) are association lists with the
`Map.get` / `Map.set` / `Map.delete` operations modelled by `lookupKey`,
`setKey` and `eraseKey`.
-/

namespace Stepruapp

/-- Model of a JavaScript value, as far as the server code inspects one.
`none` results of field lookups play the role of `undefined`. -/
inductive Js where
  | null
  | boolean (b : Bool)
  | num (n : Int)
  | str (s : String)
  | arr (xs : List Js)
  | obj (fields : List (String × Js))

/-- JavaScript truthiness test (`!v` is `jsFalsy v`).  Arrays and objects
are always truthy; `null`, `false`, `0` and the empty string are falsy. -/
def jsFalsy : Js → Bool
  | Js.null => true
  | Js.boolean b => !b
  | Js.num n => n == 0
  | Js.str s => s == ""
  | Js.arr _ => false
  | Js.obj _ => false

/-- Test for `typeof v === "object"` (true for `null`, arrays and plain
objects). -/
def jsTypeofIsObject : Js → Bool
  | Js.null => true
  | Js.arr _ => true
  | Js.obj _ => true
  | _ => false

/-- Test for `Array.isArray(v)`. -/
def jsIsArray : Js → Bool
  | Js.arr _ => true
  | _ => false

/-- First value stored under key `k` in an association list, modelling
`Map.get` (a `Map` never holds a key twice). -/
def lookupKey {α : Type} (k : String) : List (String × α) → Option α
  | [] => none
  | (k', v) :: rest => if k' = k then some v else lookupKey k rest

/-- Replace the value under key `k`, or append the binding, modelling
`Map.set`. -/
def setKey {α : Type} (k : String) (v : α) : List (String × α) → List (String × α)
  | [] => [(k, v)]
  | (k', v') :: rest => if k' = k then (k, v) :: rest else (k', v') :: setKey k v rest

/-- Remove the binding of key `k`, modelling `Map.delete`. -/
def eraseKey {α : Type} (k : String) : List (String × α) → List (String × α)
  | [] => []
  | (k', v') :: rest => if k' = k then rest else (k', v') :: eraseKey k rest

/-- Property access `v[name]` on a JavaScript value: `none` models
`undefined` (missing field, or access on a non-object). -/
def jsField (v : Js) (name : String) : Option Js :=
  match v with
  | Js.obj fields => lookupKey name fields
  | _ => none

/-- Model of the `ApiError` class (src/server/index.js lines 30-38):
`details` and `requestId` are optional constructor arguments, `none`
modelling `undefined`. -/
structure ApiError where
  status : Nat
  code : String
  message : String
  details : Option Js
  requestId : Option String

/-- Status and code of a failed computation, `none` on success. -/
def errStatusCode {α : Type} : Except ApiError α → Option (Nat × String)
  | Except.error e => some (e.status, e.code)
  | Except.ok _ => none

/-- Model of a stored session value (`authSessions` entries,
src/server/index.js line 141): `expiresAt` is an absolute millisecond
timestamp, `role` a role string. -/
structure Session where
  expiresAt : Nat
  role : String

/-- The process-wide `authSessions` map from token to session. -/
abbrev SessionStore := List (String × Session)

/-- Model of `hasValidSession` (src/server/index.js lines 152-161).
Returns the boolean result together with the possibly-updated store
(an expired entry is lazily deleted on lookup).  The empty token models
both the `null` and the empty-string falsy cases of `!token`. -/
def hasValidSession (store : SessionStore) (token : String) (now : Nat) :
    Bool × SessionStore :=
  if token = "" then (false, store)
  else
    match lookupKey token store with
    | none => (false, store)
    | some session =>
      if session.expiresAt ≤ now then (false, eraseKey token store)
      else (true, store)

/-- Model of `getSessionRole` (src/server/index.js lines 163-168).  Note
that it consults only presence in the store, never `expiresAt`; the
`session.role || "student"` fallback maps a falsy (empty) stored role to
`"student"`. -/
def getSessionRole (store : SessionStore) (token : String) : String :=
  if token = "" then "student"
  else
    match lookupKey token store with
    | none => "student"
    | some session => if session.role = "" then "student" else session.role

/-- Model of the store update performed by `createSessionToken`
(src/server/index.js lines 139-143): the freshly generated random token
is a parameter here; the code stores `{expiresAt: now + ttl, role}`. -/
def createSessionToken (store : SessionStore) (token : String) (now ttl : Nat)
    (role : String) : SessionStore :=
  setKey token { expiresAt := now + ttl, role := role } store

/-- Looking a key up right after setting it yields the new value. -/
theorem lookupKey_setKey_self {α : Type} (k : String) (v : α) :
    ∀ l : List (String × α), lookupKey k (setKey k v l) = some v := by
  intro l
  induction l with
  | nil => simp [setKey, lookupKey]
  | cons hd tl ih =>
    by_cases h : hd.1 = k
    · simp [setKey, lookupKey, h]
    · simp [setKey, lookupKey, h, ih]

/-- C1: `hasValidSession` (the spec's `isValid`) returns `false` whenever
the token is empty, absent from the session store, or its session has
`expiresAt ≤ now` at the moment of the call — the expiry test is part of
the lookup itself, independent of any sweep. -/
theorem hasValidSession_false_of_invalid (store : SessionStore) (token : String)
    (now : Nat)
    (h : token = "" ∨ lookupKey token store = none ∨
      ∃ s, lookupKey token store = some s ∧ s.expiresAt ≤ now) :
    (hasValidSession store token now).1 = false := by
  rcases h with h | h | ⟨s, hs, hexp⟩
  · simp [hasValidSession, h]
  · by_cases ht : token = ""
    · simp [hasValidSession, ht]
    · simp [hasValidSession, ht, h]
  · by_cases ht : token = ""
    · simp [hasValidSession, ht]
    · simp [hasValidSession, ht, hs, hexp]

/-- C1 witness: an expired, not-yet-swept session is rejected. -/
theorem hasValidSession_false_of_invalid_witness :
    (hasValidSession [("tok", ⟨5, "student"⟩)] "tok" 10).1 = false :=
  hasValidSession_false_of_invalid [("tok", ⟨5, "student"⟩)] "tok" 10
    (Or.inr (Or.inr ⟨⟨5, "student"⟩, by simp [lookupKey], by decide⟩))

/-- C4 counterexample: a token whose session has expired (and has not
been swept) is not currently valid, yet `getSessionRole` still returns
the stored role `"professor"`, not the default `"student"`: the role
lookup performs no expiry check. -/
theorem getSessionRole_expired_counterexample :
    (hasValidSession [("tok", ⟨5, "professor"⟩)] "tok" 10).1 = false ∧
      getSessionRole [("tok", ⟨5, "professor"⟩)] "tok" ≠ "student" := by
  constructor
  · simp [hasValidSession, lookupKey]
  · simp [getSessionRole, lookupKey]

/-- C4 amended: `getSessionRole` ignores expiry entirely.  It returns
`"student"` for an empty or unknown token, and for any token present in
the store — expired or not — it returns the stored role, falling back to
`"student"` only when the stored role is the empty string. -/
theorem getSessionRole_spec (store : SessionStore) (token : String) :
    (token = "" → getSessionRole store token = "student") ∧
    (lookupKey token store = none → getSessionRole store token = "student") ∧
    (∀ s, token ≠ "" → lookupKey token store = some s →
      getSessionRole store token = (if s.role = "" then "student" else s.role)) := by
  refine ⟨fun h => by simp [getSessionRole, h], fun h => ?_, fun s ht hs => ?_⟩
  · by_cases ht : token = ""
    · simp [getSessionRole, ht]
    · simp [getSessionRole, ht, h]
  · simp [getSessionRole, ht, hs]

/-- C4 amended witness: an expired professor session still reports role
`"professor"`. -/
theorem getSessionRole_spec_witness :
    getSessionRole [("tok", ⟨5, "professor"⟩)] "tok" = "professor" := by
  have h := (getSessionRole_spec [("tok", ⟨5, "professor"⟩)] "tok").2.2
    ⟨5, "professor"⟩ (by decide) (by simp [lookupKey])
  simpa using h

/-- Model of a rate bucket (`rateBuckets` entries, src/server/index.js
line 93): request count and absolute window-reset timestamp. -/
structure RateBucket where
  count : Nat
  resetAt : Nat

/-- The process-wide `rateBuckets` map from client IP to bucket. -/
abbrev RateBuckets := List (String × RateBucket)

/-- Outcome of the rate-limit middleware for one request: `next()` was
called, or the request was rejected with a `RATE_LIMITED` error carrying
`retryAfterSeconds`. -/
inductive RateDecision where
  | allowed
  | denied (retryAfterSeconds : Nat)

/-- Model of `rateLimitMiddleware` (src/server/index.js lines 87-114) for
one request from client `ip` at time `now`: returns the decision and the
updated bucket map.  `Math.ceil((resetAt - now) / 1000)` on millisecond
timestamps is the ceiling division `(resetAt - now + 999) / 1000`. -/
def rateLimitMiddleware (buckets : RateBuckets) (ip : String)
    (now windowMs maxRequests : Nat) : RateDecision × RateBuckets :=
  match lookupKey ip buckets with
  | none =>
    (RateDecision.allowed, setKey ip { count := 1, resetAt := now + windowMs } buckets)
  | some current =>
    if current.resetAt ≤ now then
      (RateDecision.allowed, setKey ip { count := 1, resetAt := now + windowMs } buckets)
    else if maxRequests ≤ current.count then
      (RateDecision.denied (max 1 ((current.resetAt - now + 999) / 1000)), buckets)
    else
      (RateDecision.allowed,
        setKey ip { count := current.count + 1, resetAt := current.resetAt } buckets)

/-- Run a sequence of requests from the same client through the
middleware, threading the bucket map; returns the decisions in order and
the final map. -/
def runRequests (buckets : RateBuckets) (ip : String) (times : List Nat)
    (windowMs maxRequests : Nat) : List RateDecision × RateBuckets :=
  match times with
  | [] => ([], buckets)
  | t :: rest =>
    let step := rateLimitMiddleware buckets ip t windowMs maxRequests
    let restRun := runRequests step.2 ip rest windowMs maxRequests
    (step.1 :: restRun.1, restRun.2)

/-- Number of allowed decisions in a run. -/
def countAllowed : List RateDecision → Nat
  | [] => 0
  | RateDecision.allowed :: rest => countAllowed rest + 1
  | RateDecision.denied _ :: rest => countAllowed rest

/-- Invariant of a run that stays inside the current window: starting
from a bucket `⟨c, R⟩` and request times all before `R`, exactly
`min times.length (maxRequests - c)` further requests are allowed and the
bucket ends at count `c + min times.length (maxRequests - c)` with the
same `resetAt`. -/
theorem runRequests_in_window (ip : String) (windowMs maxRequests : Nat) :
    ∀ (times : List Nat) (buckets : RateBuckets) (c R : Nat),
      lookupKey ip buckets = some ⟨c, R⟩ →
      (∀ t ∈ times, t < R) →
      countAllowed (runRequests buckets ip times windowMs maxRequests).1
          = min times.length (maxRequests - c) ∧
        lookupKey ip (runRequests buckets ip times windowMs maxRequests).2
          = some ⟨c + min times.length (maxRequests - c), R⟩ := by
  intro times
  induction times with
  | nil =>
    intro buckets c R hb _
    simp [runRequests, countAllowed, hb]
  | cons t rest ih =>
    intro buckets c R hb ht
    have htR : t < R := ht t (List.mem_cons_self _ _)
    have hrest : ∀ t' ∈ rest, t' < R := fun t' h => ht t' (List.mem_cons_of_mem _ h)
    have hnotReset : ¬ R ≤ t := Nat.not_le.mpr htR
    by_cases hc : maxRequests ≤ c
    · have hstep : rateLimitMiddleware buckets ip t windowMs maxRequests
          = (RateDecision.denied (max 1 ((R - t + 999) / 1000)), buckets) := by
        simp [rateLimitMiddleware, hb, hnotReset, hc]
      obtain ⟨ihc, ihl⟩ := ih buckets c R hb hrest
      refine ⟨?_, ?_⟩
      · simp only [runRequests, hstep, countAllowed, ihc]
        omega
      · simp only [runRequests, hstep, ihl]
        have : c + min rest.length (maxRequests - c)
            = c + min (t :: rest).length (maxRequests - c) := by
          simp only [List.length_cons]; omega
        rw [this]
    · have hstep : rateLimitMiddleware buckets ip t windowMs maxRequests
          = (RateDecision.allowed,
             setKey ip { count := c + 1, resetAt := R } buckets) := by
        simp [rateLimitMiddleware, hb, hnotReset, hc]
      have hb' : lookupKey ip (setKey ip { count := c + 1, resetAt := R } buckets)
          = some ⟨c + 1, R⟩ := lookupKey_setKey_self ip _ buckets
      obtain ⟨ihc, ihl⟩ := ih _ (c + 1) R hb' hrest
      refine ⟨?_, ?_⟩
      · simp only [runRequests, hstep, countAllowed, ihc, List.length_cons]
        omega
      · simp only [runRequests, hstep, ihl, List.length_cons]
        have : c + 1 + min rest.length (maxRequests - (c + 1))
            = c + min (rest.length + 1) (maxRequests - c) := by omega
        rw [this]

/-- C2: starting a fresh fixed window (no bucket, or an elapsed bucket)
with a request at `t0`, at most `maxRequests` of the requests inside the
window `[t0, t0 + windowMs)` are allowed; and after `maxRequests` allowed
requests, one more request inside the same window is denied with
`retryAfterSeconds = ceil((resetAt - now) / 1000)`, which is strictly
positive. -/
theorem rateLimit_window_cap (buckets : RateBuckets) (ip : String)
    (windowMs maxRequests t0 : Nat) (ts : List Nat) (tlast : Nat)
    (hmax : 1 ≤ maxRequests)
    (hfresh : lookupKey ip buckets = none ∨
      ∃ b, lookupKey ip buckets = some b ∧ b.resetAt ≤ t0)
    (hts : ∀ t ∈ ts, t < t0 + windowMs)
    (hlast : tlast < t0 + windowMs) :
    countAllowed (runRequests buckets ip (t0 :: ts) windowMs maxRequests).1
        ≤ maxRequests ∧
      (ts.length = maxRequests - 1 →
        (rateLimitMiddleware (runRequests buckets ip (t0 :: ts) windowMs maxRequests).2
            ip tlast windowMs maxRequests).1
          = RateDecision.denied ((t0 + windowMs - tlast + 999) / 1000) ∧
        0 < (t0 + windowMs - tlast + 999) / 1000) := by
  have hstep : rateLimitMiddleware buckets ip t0 windowMs maxRequests
      = (RateDecision.allowed,
         setKey ip { count := 1, resetAt := t0 + windowMs } buckets) := by
    rcases hfresh with h | ⟨b, hb, hexp⟩
    · simp [rateLimitMiddleware, h]
    · simp [rateLimitMiddleware, hb, hexp]
  have hb' : lookupKey ip (setKey ip { count := 1, resetAt := t0 + windowMs } buckets)
      = some ⟨1, t0 + windowMs⟩ := lookupKey_setKey_self ip _ buckets
  obtain ⟨hcnt, hlook⟩ :=
    runRequests_in_window ip windowMs maxRequests ts _ 1 (t0 + windowMs) hb' hts
  constructor
  · simp only [runRequests, hstep, countAllowed, hcnt]
    omega
  · intro hlen
    have hfull : lookupKey ip (runRequests buckets ip (t0 :: ts) windowMs maxRequests).2
        = some ⟨maxRequests, t0 + windowMs⟩ := by
      simp only [runRequests, hstep, hlook, hlen]
      have : 1 + min (maxRequests - 1) (maxRequests - 1) = maxRequests := by omega
      rw [this]
    have hnotReset : ¬ t0 + windowMs ≤ tlast := Nat.not_le.mpr hlast
    have hretry : 1 ≤ (t0 + windowMs - tlast + 999) / 1000 := by
      have h1000 : 1000 ≤ t0 + windowMs - tlast + 999 := by omega
      omega
    constructor
    · simp [rateLimitMiddleware, hfull, hnotReset, Nat.max_eq_right hretry]
    · omega

/-- C2 witness: window 60000 ms, cap 2, calls at 0, 10, 20: the first two
are allowed, the third is denied with retryAfterSeconds 60. -/
theorem rateLimit_window_cap_witness :
    countAllowed (runRequests [] "ip" [0, 10] 60000 2).1 ≤ 2 ∧
      ([10].length = 2 - 1 →
        (rateLimitMiddleware (runRequests [] "ip" [0, 10] 60000 2).2
            "ip" 20 60000 2).1
          = RateDecision.denied ((0 + 60000 - 20 + 999) / 1000) ∧
        0 < (0 + 60000 - 20 + 999) / 1000) :=
  rateLimit_window_cap [] "ip" 60000 2 0 [10] 20 (by decide)
    (Or.inl (by simp [lookupKey]))
    (by intro t h; simp at h; omega) (by omega)

/-- C9: for an existing bucket, a request at `now ≥ resetAt` replaces the
bucket by a fresh `{count := 1, resetAt := now + windowMs}`; and the only
way a step leaves the same client with count incremented in place (same
`resetAt`, count one higher) is that `now < resetAt` held.  The window
length is positive (it is 60000 ms by default and configured positive). -/
theorem rateLimit_reset_invariant (buckets : RateBuckets) (ip : String)
    (now windowMs maxRequests : Nat) (hwin : 0 < windowMs) :
    (∀ b, lookupKey ip buckets = some b → b.resetAt ≤ now →
      (rateLimitMiddleware buckets ip now windowMs maxRequests).2
        = setKey ip { count := 1, resetAt := now + windowMs } buckets) ∧
    (∀ b, lookupKey ip buckets = some b →
      lookupKey ip (rateLimitMiddleware buckets ip now windowMs maxRequests).2
        = some { count := b.count + 1, resetAt := b.resetAt } →
      now < b.resetAt) := by
  constructor
  · intro b hb hexp
    simp [rateLimitMiddleware, hb, hexp]
  · intro b hb hinc
    by_cases hexp : b.resetAt ≤ now
    · exfalso
      rw [rateLimitMiddleware] at hinc
      rw [hb] at hinc
      simp only [hexp, if_pos] at hinc
      rw [lookupKey_setKey_self] at hinc
      have := Option.some.inj hinc
      have hre : now + windowMs = b.resetAt := congrArg RateBucket.resetAt this
      omega
    · exact Nat.not_le.mp hexp

/-- C9 witness: a bucket whose window elapsed is replaced by a fresh one,
and an in-window increment indeed implies the request arrived before the
reset time. -/
theorem rateLimit_reset_invariant_witness :
    (rateLimitMiddleware [("ip", ⟨7, 50⟩)] "ip" 50 60000 30).2
        = setKey "ip" { count := 1, resetAt := 50 + 60000 } [("ip", ⟨7, 50⟩)] :=
  (rateLimit_reset_invariant [("ip", ⟨7, 50⟩)] "ip" 50 60000 30 (by decide)).1
    ⟨7, 50⟩ (by simp [lookupKey]) (by decide)

/-- C10: when the middleware denies a request (existing bucket with
`now < resetAt` and `count ≥ maxRequests`), the entire bucket map is
returned unchanged: the denied client's count and resetAt are untouched,
and so is every other client's bucket. -/
theorem rateLimit_denied_frame (buckets : RateBuckets) (ip : String)
    (now windowMs maxRequests : Nat) (b : RateBucket)
    (hb : lookupKey ip buckets = some b)
    (hwin : now < b.resetAt)
    (hcap : maxRequests ≤ b.count) :
    (rateLimitMiddleware buckets ip now windowMs maxRequests).2 = buckets ∧
      (rateLimitMiddleware buckets ip now windowMs maxRequests).1
        = RateDecision.denied (max 1 ((b.resetAt - now + 999) / 1000)) := by
  have hnotReset : ¬ b.resetAt ≤ now := Nat.not_le.mpr hwin
  constructor
  · simp [rateLimitMiddleware, hb, hnotReset, hcap]
  · simp [rateLimitMiddleware, hb, hnotReset, hcap]

/-- C10 witness: a denied request at count 30 of 30 leaves the two-client
bucket map exactly as it was. -/
theorem rateLimit_denied_frame_witness :
    (rateLimitMiddleware [("a", ⟨30, 1000⟩), ("b", ⟨2, 900⟩)] "a" 100 60000 30).2
      = [("a", ⟨30, 1000⟩), ("b", ⟨2, 900⟩)] :=
  (rateLimit_denied_frame [("a", ⟨30, 1000⟩), ("b", ⟨2, 900⟩)] "a" 100 60000 30
    ⟨30, 1000⟩ (by simp [lookupKey]) (by decide) (by decide)).1

/-- Strip leading and trailing whitespace characters from a character
list. -/
def trimChars (l : List Char) : List Char :=
  ((l.dropWhile Char.isWhitespace).reverse.dropWhile Char.isWhitespace).reverse

/-- Model of JavaScript `String.prototype.trim`: strip whitespace from
both ends. -/
def jsTrim (s : String) : String :=
  String.mk (trimChars s.data)

/-- Model of `readRequiredTextField` (src/server/index.js lines 116-137).
The body is rejected unless it is a truthy non-array value of `typeof`
"object"; the field must be a string whose trim is non-empty and within
`maxLength`.  JavaScript trimming and UTF-16 `length` are modelled by
`jsTrim` and `String.length`. -/
def readRequiredTextField (body : Js) (fieldName : String) (maxLength : Nat) :
    Except ApiError String :=
  if jsFalsy body || !jsTypeofIsObject body || jsIsArray body then
    Except.error ⟨400, "INVALID_INPUT", "Request body must be a JSON object.", none, none⟩
  else
    match jsField body fieldName with
    | some (Js.str raw) =>
      let value := jsTrim raw
      if value = "" then
        Except.error ⟨400, "INVALID_INPUT",
          "Field \"" ++ fieldName ++ "\" cannot be empty.", none, none⟩
      else if maxLength < value.length then
        Except.error ⟨400, "INPUT_TOO_LARGE",
          "Field \"" ++ fieldName ++ "\" exceeds maximum length.",
          some (Js.obj [("field", Js.str fieldName), ("maxLength", Js.num maxLength)]),
          none⟩
      else
        Except.ok value
    | _ =>
      Except.error ⟨400, "INVALID_INPUT",
        "Field \"" ++ fieldName ++ "\" must be a string.", none, none⟩

/-- C5: `readRequiredTextField` rejects a non-object or array body, a
missing, non-string or whitespace-only field, each with status 400 and
code `INVALID_INPUT`; rejects an overlong trimmed value with
`INPUT_TOO_LARGE` and details `{field, maxLength}`; and otherwise returns
the trimmed string. -/
theorem readRequiredTextField_spec (body : Js) (fieldName : String) (maxLength : Nat) :
    ((∀ fs, body ≠ Js.obj fs) →
      errStatusCode (readRequiredTextField body fieldName maxLength)
        = some (400, "INVALID_INPUT")) ∧
    (∀ fs, body = Js.obj fs →
      (lookupKey fieldName fs = none →
        errStatusCode (readRequiredTextField body fieldName maxLength)
          = some (400, "INVALID_INPUT")) ∧
      (∀ v, lookupKey fieldName fs = some v → (∀ s, v ≠ Js.str s) →
        errStatusCode (readRequiredTextField body fieldName maxLength)
          = some (400, "INVALID_INPUT")) ∧
      (∀ s, lookupKey fieldName fs = some (Js.str s) → (jsTrim s) = "" →
        errStatusCode (readRequiredTextField body fieldName maxLength)
          = some (400, "INVALID_INPUT")) ∧
      (∀ s, lookupKey fieldName fs = some (Js.str s) → (jsTrim s) ≠ "" →
        maxLength < (jsTrim s).length →
        ∃ e, readRequiredTextField body fieldName maxLength = Except.error e ∧
          e.status = 400 ∧ e.code = "INPUT_TOO_LARGE" ∧
          e.details = some (Js.obj
            [("field", Js.str fieldName), ("maxLength", Js.num maxLength)])) ∧
      (∀ s, lookupKey fieldName fs = some (Js.str s) → (jsTrim s) ≠ "" →
        (jsTrim s).length ≤ maxLength →
        readRequiredTextField body fieldName maxLength = Except.ok (jsTrim s))) := by
  constructor
  · intro hnotObj
    cases body with
    | null => simp [readRequiredTextField, jsFalsy, errStatusCode]
    | boolean b =>
      cases b <;>
        simp [readRequiredTextField, jsFalsy, jsTypeofIsObject, errStatusCode]
    | num n =>
      by_cases h : n = 0 <;>
        simp [readRequiredTextField, jsFalsy, jsTypeofIsObject, h, errStatusCode]
    | str s =>
      by_cases h : s = "" <;>
        simp [readRequiredTextField, jsFalsy, jsTypeofIsObject, h, errStatusCode]
    | arr xs =>
      simp [readRequiredTextField, jsFalsy, jsTypeofIsObject, jsIsArray, errStatusCode]
    | obj fs => exact absurd rfl (hnotObj fs)
  · rintro fs rfl
    refine ⟨fun hmiss => ?_, fun v hv hns => ?_, fun s hs htrim => ?_,
      fun s hs htrim hlong => ?_, fun s hs htrim hfit => ?_⟩
    · simp [readRequiredTextField, jsFalsy, jsTypeofIsObject, jsIsArray, jsField,
        hmiss, errStatusCode]
    · have : ∀ s, v ≠ Js.str s := hns
      cases v with
      | str s => exact absurd rfl (hns s)
      | null =>
        simp [readRequiredTextField, jsFalsy, jsTypeofIsObject, jsIsArray, jsField,
          hv, errStatusCode]
      | boolean b =>
        simp [readRequiredTextField, jsFalsy, jsTypeofIsObject, jsIsArray, jsField,
          hv, errStatusCode]
      | num n =>
        simp [readRequiredTextField, jsFalsy, jsTypeofIsObject, jsIsArray, jsField,
          hv, errStatusCode]
      | arr xs =>
        simp [readRequiredTextField, jsFalsy, jsTypeofIsObject, jsIsArray, jsField,
          hv, errStatusCode]
      | obj gs =>
        simp [readRequiredTextField, jsFalsy, jsTypeofIsObject, jsIsArray, jsField,
          hv, errStatusCode]
    · simp [readRequiredTextField, jsFalsy, jsTypeofIsObject, jsIsArray, jsField,
        hs, htrim, errStatusCode]
    · refine ⟨⟨400, "INPUT_TOO_LARGE",
        "Field \"" ++ fieldName ++ "\" exceeds maximum length.",
        some (Js.obj [("field", Js.str fieldName), ("maxLength", Js.num maxLength)]),
        none⟩, ?_, rfl, rfl, rfl⟩
      simp [readRequiredTextField, jsFalsy, jsTypeofIsObject, jsIsArray, jsField,
        hs, htrim, hlong]
    · have hnotLong : ¬ maxLength < (jsTrim s).length := Nat.not_lt.mpr hfit
      simp [readRequiredTextField, jsFalsy, jsTypeofIsObject, jsIsArray, jsField,
        hs, htrim, hnotLong]

/-- C5 witness: an array body is rejected as `INVALID_INPUT`, and a valid
one-field body returns the trimmed string. -/
theorem readRequiredTextField_spec_witness :
    errStatusCode (readRequiredTextField (Js.arr []) "content" 10)
        = some (400, "INVALID_INPUT") ∧
      readRequiredTextField (Js.obj [("content", Js.str " hi ")]) "content" 10
        = Except.ok "hi" := by
  constructor
  · exact (readRequiredTextField_spec (Js.arr []) "content" 10).1 (fun fs h => by
      simp at h)
  · exact (readRequiredTextField_spec (Js.obj [("content", Js.str " hi ")])
      "content" 10).2 [("content", Js.str " hi ")] rfl |>.2.2.2.2 " hi "
      (by simp [lookupKey]) (by decide) (by decide)

/-- Successful login response body (src/server/index.js lines 271-275 and
296-300). -/
structure LoginOk where
  token : String
  role : String
  expiresInMs : Nat

/-- Model of the `POST /api/auth/login` handler (src/server/index.js
lines 259-279).  `appPassword` is the trimmed `APP_PASSWORD`
configuration (empty means authentication disabled), `freshToken` the
random token `createSessionToken` would generate, `now` the call time and
`ttl` the configured `SESSION_TTL_MS`.  Returns the response body and the
updated session store, or the thrown `ApiError`. -/
def loginStudent (appPassword : String) (maxPasswordLength : Nat) (body : Js)
    (now ttl : Nat) (freshToken : String) (store : SessionStore) :
    Except ApiError (LoginOk × SessionStore) :=
  if appPassword = "" then
    Except.error ⟨500, "AUTH_NOT_CONFIGURED",
      "APP_PASSWORD is not configured on the server.", none, none⟩
  else
    match readRequiredTextField body "password" maxPasswordLength with
    | Except.error e => Except.error e
    | Except.ok password =>
      if password ≠ appPassword then
        Except.error ⟨401, "INVALID_CREDENTIALS", "Mot de passe incorrect.", none, none⟩
      else
        Except.ok ({ token := freshToken, role := "student", expiresInMs := ttl },
          createSessionToken store freshToken now ttl "student")

/-- Model of the `POST /api/auth/prof-login` handler (src/server/index.js
lines 281-304): as `loginStudent`, but the password is compared against
the trimmed `PROF_PASSWORD` (`profPassword` here) and the stored role is
`"professor"`. -/
def loginProfessor (appPassword profPassword : String) (maxPasswordLength : Nat)
    (body : Js) (now ttl : Nat) (freshToken : String) (store : SessionStore) :
    Except ApiError (LoginOk × SessionStore) :=
  if appPassword = "" then
    Except.error ⟨500, "AUTH_NOT_CONFIGURED",
      "APP_PASSWORD is not configured on the server.", none, none⟩
  else if profPassword = "" then
    Except.error ⟨500, "PROF_AUTH_NOT_CONFIGURED",
      "PROF_PASSWORD is not configured on the server.", none, none⟩
  else
    match readRequiredTextField body "password" maxPasswordLength with
    | Except.error e => Except.error e
    | Except.ok password =>
      if password ≠ profPassword then
        Except.error ⟨401, "INVALID_CREDENTIALS",
          "Mot de passe professeur incorrect.", none, none⟩
      else
        Except.ok ({ token := freshToken, role := "professor", expiresInMs := ttl },
          createSessionToken store freshToken now ttl "professor")

/-- C3: login round-trip.  With authentication configured, submitting the
correct base password yields a token that subsequently validates (before
its expiry) with role `"student"`; the correct elevated password yields a
token validating with role `"professor"`; and a well-formed but wrong
password never yields a token — the handler fails with status 401, code
`INVALID_CREDENTIALS`.  The generated 64-hex-character token is
non-empty. -/
theorem login_roundtrip (appPassword profPassword : String)
    (maxPasswordLength : Nat) (body : Js) (now ttl : Nat) (freshToken : String)
    (store : SessionStore) (later : Nat) :
    (appPassword ≠ "" →
      readRequiredTextField body "password" maxPasswordLength
        = Except.ok appPassword →
      freshToken ≠ "" → later < now + ttl →
      ∃ store',
        loginStudent appPassword maxPasswordLength body now ttl freshToken store
          = Except.ok (⟨freshToken, "student", ttl⟩, store') ∧
        (hasValidSession store' freshToken later).1 = true ∧
        getSessionRole store' freshToken = "student") ∧
    (appPassword ≠ "" → profPassword ≠ "" →
      readRequiredTextField body "password" maxPasswordLength
        = Except.ok profPassword →
      freshToken ≠ "" → later < now + ttl →
      ∃ store',
        loginProfessor appPassword profPassword maxPasswordLength body now ttl
            freshToken store
          = Except.ok (⟨freshToken, "professor", ttl⟩, store') ∧
        (hasValidSession store' freshToken later).1 = true ∧
        getSessionRole store' freshToken = "professor") ∧
    (∀ pw, appPassword ≠ "" →
      readRequiredTextField body "password" maxPasswordLength = Except.ok pw →
      pw ≠ appPassword →
      errStatusCode
          (loginStudent appPassword maxPasswordLength body now ttl freshToken store)
        = some (401, "INVALID_CREDENTIALS")) ∧
    (∀ pw, appPassword ≠ "" → profPassword ≠ "" →
      readRequiredTextField body "password" maxPasswordLength = Except.ok pw →
      pw ≠ profPassword →
      errStatusCode
          (loginProfessor appPassword profPassword maxPasswordLength body now ttl
            freshToken store)
        = some (401, "INVALID_CREDENTIALS")) := by
  have hlook : lookupKey freshToken
      (setKey freshToken { expiresAt := now + ttl, role := "student" } store)
      = some { expiresAt := now + ttl, role := "student" } :=
    lookupKey_setKey_self freshToken _ store
  have hlookP : lookupKey freshToken
      (setKey freshToken { expiresAt := now + ttl, role := "professor" } store)
      = some { expiresAt := now + ttl, role := "professor" } :=
    lookupKey_setKey_self freshToken _ store
  refine ⟨fun hApp hpw htok hlater => ?_, fun hApp hProf hpw htok hlater => ?_,
    fun pw hApp hpw hne => ?_, fun pw hApp hProf hpw hne => ?_⟩
  · refine ⟨createSessionToken store freshToken now ttl "student", ?_, ?_, ?_⟩
    · simp [loginStudent, hApp, hpw]
    · have hnotExp : ¬ now + ttl ≤ later := Nat.not_le.mpr hlater
      simp [createSessionToken, hasValidSession, htok, hlook, hnotExp]
    · simp [createSessionToken, getSessionRole, htok, hlook]
  · refine ⟨createSessionToken store freshToken now ttl "professor", ?_, ?_, ?_⟩
    · simp [loginProfessor, hApp, hProf, hpw]
    · have hnotExp : ¬ now + ttl ≤ later := Nat.not_le.mpr hlater
      simp [createSessionToken, hasValidSession, htok, hlookP, hnotExp]
    · simp [createSessionToken, getSessionRole, htok, hlookP]
  · simp [loginStudent, hApp, hpw, hne, errStatusCode]
  · simp [loginProfessor, hApp, hProf, hpw, hne, errStatusCode]

/-- C3 witness: with password `"pw"` configured, a correct login at time
0 with TTL 1000 validates at time 500 as a student, and the wrong
password `"bad"` is rejected with 401 `INVALID_CREDENTIALS`. -/
theorem login_roundtrip_witness :
    (∃ store',
      loginStudent "pw" 256 (Js.obj [("password", Js.str "pw")]) 0 1000 "tok" []
        = Except.ok (⟨"tok", "student", 1000⟩, store') ∧
      (hasValidSession store' "tok" 500).1 = true ∧
      getSessionRole store' "tok" = "student") ∧
    errStatusCode
        (loginStudent "pw" 256 (Js.obj [("password", Js.str "bad")]) 0 1000 "tok" [])
      = some (401, "INVALID_CREDENTIALS") := by
  constructor
  · exact (login_roundtrip "pw" "" 256 (Js.obj [("password", Js.str "pw")]) 0 1000
      "tok" [] 500).1 (by decide)
      (by rfl)
      (by decide) (by decide)
  · exact (login_roundtrip "pw" "" 256 (Js.obj [("password", Js.str "bad")]) 0 1000
      "tok" [] 500).2.2.1 "bad" (by decide)
      (by rfl)
      (by decide)

/-- A thrown JavaScript value: either an `ApiError` instance or any other
value (a different error, a string, a number, ...). -/
inductive Thrown where
  | api (e : ApiError)
  | other (v : Js)

/-- Inner `error` object of a normalized error response. -/
structure ErrorPayload where
  code : String
  message : String
  details : Option Js
  requestId : Option String

/-- Response body wrapper `{error: {...}}`. -/
structure ErrorBody where
  error : ErrorPayload

/-- Result of `normalizeError`: an HTTP status plus the JSON body. -/
structure NormalizedError where
  status : Nat
  body : ErrorBody

/-- JavaScript `x || null` on an optional value: a falsy present value
collapses to `null` (`none`), a truthy one is kept. -/
def jsOrNull : Option Js → Option Js
  | none => none
  | some v => if jsFalsy v then none else some v

/-- JavaScript `x || null` on an optional string. -/
def strOrNull : Option String → Option String
  | none => none
  | some s => if s = "" then none else some s

/-- Model of `normalizeError` (src/server/index.js lines 40-66).  An
`ApiError` keeps its own status, code, message, details and requestId
(with the source's `|| null` coalescing of absent or falsy details and
requestId); every other thrown value — error or not — becomes status 500,
code `INTERNAL_ERROR`, a generic message and null details.  The function
is total over `Thrown` by construction. -/
def normalizeError : Thrown → NormalizedError
  | Thrown.api e =>
    { status := e.status,
      body := { error := { code := e.code, message := e.message,
                           details := jsOrNull e.details,
                           requestId := strOrNull e.requestId } } }
  | Thrown.other _ =>
    { status := 500,
      body := { error := { code := "INTERNAL_ERROR",
                           message := "Unexpected server error.",
                           details := none, requestId := none } } }

/-- C6: the error normalizer is total — every thrown value yields the
`{status, body: {error: {code, message, details, requestId}}}` shape.  An
`ApiError` whose details and requestId are absent or truthy (every
`ApiError` the server constructs: details are object literals, request
ids non-empty header strings) is carried through verbatim, and any other
thrown value maps to status 500, code `INTERNAL_ERROR`, the generic
message and null details and requestId. -/
theorem normalizeError_spec (t : Thrown) :
    (∀ e, t = Thrown.api e →
      (∀ d, e.details = some d → jsFalsy d = false) →
      (∀ r, e.requestId = some r → r ≠ "") →
      normalizeError t
        = ⟨e.status, ⟨⟨e.code, e.message, e.details, e.requestId⟩⟩⟩) ∧
    (∀ v, t = Thrown.other v →
      normalizeError t
        = ⟨500, ⟨⟨"INTERNAL_ERROR", "Unexpected server error.", none, none⟩⟩⟩) := by
  constructor
  · rintro e rfl hd hr
    have hdet : jsOrNull e.details = e.details := by
      cases hdet : e.details with
      | none => simp [jsOrNull]
      | some d => simp [jsOrNull, hd d hdet]
    have hreq : strOrNull e.requestId = e.requestId := by
      cases hreq : e.requestId with
      | none => simp [strOrNull]
      | some r => simp [strOrNull, hr r hreq]
    simp [normalizeError, hdet, hreq]
  · rintro v rfl
    simp [normalizeError]

/-- C6 witness: a rate-limit `ApiError` with object details passes
through unchanged, and a thrown string normalizes to the generic 500. -/
theorem normalizeError_spec_witness :
    normalizeError (Thrown.api ⟨429, "RATE_LIMITED", "Too many requests.",
        some (Js.obj [("retryAfterSeconds", Js.num 3)]), none⟩)
      = ⟨429, ⟨⟨"RATE_LIMITED", "Too many requests.",
          some (Js.obj [("retryAfterSeconds", Js.num 3)]), none⟩⟩⟩ ∧
    normalizeError (Thrown.other (Js.str "boom"))
      = ⟨500, ⟨⟨"INTERNAL_ERROR", "Unexpected server error.", none, none⟩⟩⟩ := by
  constructor
  · exact (normalizeError_spec (Thrown.api ⟨429, "RATE_LIMITED",
      "Too many requests.", some (Js.obj [("retryAfterSeconds", Js.num 3)]),
      none⟩)).1 _ rfl
      (by rintro d hd; cases hd; rfl)
      (by rintro r hr; cases hr)
  · exact (normalizeError_spec (Thrown.other (Js.str "boom"))).2 _ rfl

/-- Test whether the first character list is a prefix of the second. -/
def leadsChars : List Char → List Char → Bool
  | [], _ => true
  | _ :: _, [] => false
  | c :: cs, d :: ds => c == d && leadsChars cs ds

/-- Test whether `needle` occurs as a contiguous run inside `hay`. -/
def hasSub (needle : List Char) : List Char → Bool
  | [] => leadsChars needle []
  | c :: rest => leadsChars needle (c :: rest) || hasSub needle rest

/-- Model of JavaScript `s.includes(pat)`. -/
def includesStr (s pat : String) : Bool :=
  hasSub pat.data s.data

/-- Model of a `fetch` response as `readOpenAiError` inspects one: the
HTTP status, the optional `x-request-id` header, the `content-type`
header (absent modelled by `""`, as the source's `|| ""` does), the
outcome of `response.json()` (`none` models a parse failure, caught to
`null`) and the outcome of `response.text()` (`""` models a read
failure, caught to `""`). -/
structure UpResponse where
  status : Nat
  xRequestId : Option String
  contentType : String
  jsonResult : Option Js
  textResult : String

/-- Extraction `parsed?.error?.message` on the optional parsed JSON body:
`none` models `undefined`. -/
def jsErrMessageVal : Option Js → Option Js
  | some (Js.obj fields) =>
    match lookupKey "error" fields with
    | some (Js.obj efields) => lookupKey "message" efields
    | _ => none
  | _ => none

/-- The `upstreamMessage` computed by `readOpenAiError`
(src/server/index.js lines 204-213):
`parsed?.error?.message || raw || "OpenAI request failed."`, where
`parsed` is the JSON body when the content type includes
`application/json` and `raw` the text body otherwise. -/
def upstreamMessageOf (r : UpResponse) : Js :=
  let parsed := if includesStr r.contentType "application/json" then r.jsonResult
    else none
  let raw := if includesStr r.contentType "application/json" then "" else r.textResult
  match jsErrMessageVal parsed with
  | some v =>
    if jsFalsy v then
      (if raw = "" then Js.str "OpenAI request failed." else Js.str raw)
    else v
  | none => if raw = "" then Js.str "OpenAI request failed." else Js.str raw

/-- Model of `readOpenAiError` (src/server/index.js lines 201-232): maps
a non-success upstream response to the `ApiError` the gateway throws. -/
def readOpenAiError (r : UpResponse) : ApiError :=
  let requestId := r.xRequestId
  let upstreamMessage := upstreamMessageOf r
  if r.status = 429 then
    ⟨429, "UPSTREAM_RATE_LIMIT", "OpenAI rate limit reached. Retry later.",
      some (Js.obj [("upstreamMessage", upstreamMessage)]), requestId⟩
  else if r.status = 401 ∨ r.status = 403 then
    ⟨502, "UPSTREAM_AUTH_ERROR", "Upstream authentication failed.",
      some (Js.obj [("upstreamMessage", upstreamMessage)]), requestId⟩
  else if 500 ≤ r.status then
    ⟨502, "UPSTREAM_UNAVAILABLE", "OpenAI service is temporarily unavailable.",
      some (Js.obj [("upstreamMessage", upstreamMessage)]), requestId⟩
  else
    ⟨502, "UPSTREAM_ERROR", "OpenAI request failed.",
      some (Js.obj [("upstreamMessage", upstreamMessage)]), requestId⟩

/-- C7: classification of non-success upstream responses.  Upstream 429
maps to `UPSTREAM_RATE_LIMIT` with status 429; upstream 401 or 403 to
`UPSTREAM_AUTH_ERROR` with status 502; upstream 500 and above to
`UPSTREAM_UNAVAILABLE` with status 502; any other non-2xx response to
`UPSTREAM_ERROR` with status 502.  Every classified failure carries the
upstream message in its details — in particular a non-empty JSON
`error.message` verbatim — and the upstream correlation id exactly when
the `x-request-id` header provides one. -/
theorem readOpenAiError_spec (r : UpResponse) :
    (r.status = 429 → (readOpenAiError r).status = 429 ∧
      (readOpenAiError r).code = "UPSTREAM_RATE_LIMIT") ∧
    (r.status = 401 ∨ r.status = 403 → (readOpenAiError r).status = 502 ∧
      (readOpenAiError r).code = "UPSTREAM_AUTH_ERROR") ∧
    (500 ≤ r.status → (readOpenAiError r).status = 502 ∧
      (readOpenAiError r).code = "UPSTREAM_UNAVAILABLE") ∧
    (¬ (200 ≤ r.status ∧ r.status ≤ 299) → r.status ≠ 429 → r.status ≠ 401 →
      r.status ≠ 403 → r.status < 500 → (readOpenAiError r).status = 502 ∧
      (readOpenAiError r).code = "UPSTREAM_ERROR") ∧
    ((readOpenAiError r).details
      = some (Js.obj [("upstreamMessage", upstreamMessageOf r)])) ∧
    (∀ m, includesStr r.contentType "application/json" = true →
      jsErrMessageVal r.jsonResult = some (Js.str m) → m ≠ "" →
      (readOpenAiError r).details
        = some (Js.obj [("upstreamMessage", Js.str m)])) ∧
    ((readOpenAiError r).requestId = r.xRequestId) := by
  have hdet : (readOpenAiError r).details
      = some (Js.obj [("upstreamMessage", upstreamMessageOf r)]) := by
    rw [readOpenAiError]
    by_cases h429 : r.status = 429
    · simp [h429]
    · by_cases hauth : r.status = 401 ∨ r.status = 403
      · simp [h429, hauth]
      · by_cases h500 : 500 ≤ r.status
        · simp [h429, hauth, h500]
        · simp [h429, hauth, h500]
  have hreq : (readOpenAiError r).requestId = r.xRequestId := by
    rw [readOpenAiError]
    by_cases h429 : r.status = 429
    · simp [h429]
    · by_cases hauth : r.status = 401 ∨ r.status = 403
      · simp [h429, hauth]
      · by_cases h500 : 500 ≤ r.status
        · simp [h429, hauth, h500]
        · simp [h429, hauth, h500]
  refine ⟨fun h => ?_, fun h => ?_, fun h => ?_, fun _ h429 h401 h403 hlt => ?_,
    hdet, fun m hct hmsg hne => ?_, hreq⟩
  · simp [readOpenAiError, h]
  · rcases h with h | h <;> simp [readOpenAiError, h]
  · have h429 : r.status ≠ 429 := by omega
    have h401 : ¬ (r.status = 401 ∨ r.status = 403) := by omega
    simp [readOpenAiError, h429, h401, h]
  · have hauth : ¬ (r.status = 401 ∨ r.status = 403) := by omega
    have h500 : ¬ 500 ≤ r.status := by omega
    simp [readOpenAiError, h429, hauth, h500]
  · have hmsgVal : upstreamMessageOf r = Js.str m := by
      rw [upstreamMessageOf]
      simp only [hct, if_pos, if_true, hmsg]
      simp [jsFalsy, hne]
    rw [hdet, hmsgVal]

/-- C7 witness: a JSON 503 response with an `x-request-id` and message
`"overloaded"` classifies as `UPSTREAM_UNAVAILABLE` with status 502,
details carrying the message, and the correlation id preserved. -/
theorem readOpenAiError_spec_witness :
    ((readOpenAiError ⟨503, some "req-1", "application/json",
        some (Js.obj [("error", Js.obj [("message", Js.str "overloaded")])]),
        ""⟩).status = 502 ∧
      (readOpenAiError ⟨503, some "req-1", "application/json",
        some (Js.obj [("error", Js.obj [("message", Js.str "overloaded")])]),
        ""⟩).code = "UPSTREAM_UNAVAILABLE") ∧
    (readOpenAiError ⟨503, some "req-1", "application/json",
        some (Js.obj [("error", Js.obj [("message", Js.str "overloaded")])]),
        ""⟩).details
      = some (Js.obj [("upstreamMessage", Js.str "overloaded")]) ∧
    (readOpenAiError ⟨503, some "req-1", "application/json",
        some (Js.obj [("error", Js.obj [("message", Js.str "overloaded")])]),
        ""⟩).requestId = some "req-1" := by
  refine ⟨?_, ?_, ?_⟩
  · exact (readOpenAiError_spec _).2.2.1 (by decide)
  · exact (readOpenAiError_spec _).2.2.2.2.2.1 "overloaded" (by rfl)
      (by rfl) (by decide)
  · exact (readOpenAiError_spec _).2.2.2.2.2.2

/-- Property access `v[name]` with the JavaScript throwing behaviour:
access on `null` throws a `TypeError` (modelled by `error ()`); access on
any other non-object value auto-boxes and yields `undefined` (`none`);
access on an object looks the field up.  (`JSON.parse` never produces
`undefined`, so the `undefined` receiver case does not arise.) -/
def jsFieldAccess (v : Js) (name : String) : Except Unit (Option Js) :=
  match v with
  | Js.null => Except.error ()
  | Js.obj fields => Except.ok (lookupKey name fields)
  | _ => Except.ok none

/-- Model of the flashcards payload handling on a successful upstream
call (src/server/index.js lines 403-413).  The host runtime `JSON.parse`
of the upstream message content is represented by its outcome: `error`
models a thrown `SyntaxError`, which the route catch converts to a 502
`UPSTREAM_INVALID_RESPONSE` `ApiError`.  On `ok parsed` the unguarded
`parsed.flashcards` access (line 405) is performed by `jsFieldAccess`:
when `parsed` is `null` it throws a `TypeError`, which the catch does
not recognise as a `SyntaxError` and forwards as a non-`ApiError` thrown
value (represented by `Thrown.other Js.null`; `normalizeError` ignores
which value it is).  Otherwise the field is kept when it is an array and
replaced by the empty list when missing or non-array. -/
def flashcardsFromParse (parseOutcome : Except Unit Js) :
    Except Thrown (List Js) :=
  match parseOutcome with
  | Except.error _ =>
    Except.error (Thrown.api ⟨502, "UPSTREAM_INVALID_RESPONSE",
      "Invalid flashcards payload from OpenAI.", none, none⟩)
  | Except.ok parsed =>
    match jsFieldAccess parsed "flashcards" with
    | Except.error _ => Except.error (Thrown.other Js.null)
    | Except.ok (some (Js.arr cards)) => Except.ok cards
    | Except.ok _ => Except.ok []

/-- C8 counterexample: upstream message content `"null"` parses
successfully to `null`, yet the operation does not return the empty
flashcard list: the unguarded `parsed.flashcards` access throws a
`TypeError`, which normalizes to status 500, code `INTERNAL_ERROR` — an
error response, where the claim promises the empty list. -/
theorem flashcardsFromParse_null_counterexample :
    flashcardsFromParse (Except.ok Js.null) ≠ Except.ok [] ∧
      flashcardsFromParse (Except.ok Js.null)
        = Except.error (Thrown.other Js.null) ∧
      (normalizeError (Thrown.other Js.null)).status = 500 ∧
      (normalizeError (Thrown.other Js.null)).body.error.code
        = "INTERNAL_ERROR" := by
  refine ⟨fun h => ?_, rfl, rfl, rfl⟩
  exact Except.noConfusion h

/-- C8 amended: on a successful upstream call, a message content that
fails to parse as JSON makes the flashcards operation fail with status
502 and code `UPSTREAM_INVALID_RESPONSE`; a content that parses to a
non-null value whose `flashcards` field is missing or not an array
yields the empty flashcard list instead of an error; a content that
parses to `null` makes the unguarded `parsed.flashcards` access throw a
`TypeError`, so the request fails with status 500, code
`INTERNAL_ERROR`. -/
theorem flashcardsFromParse_spec (parseOutcome : Except Unit Js) :
    (parseOutcome = Except.error () →
      ∃ e, flashcardsFromParse parseOutcome = Except.error (Thrown.api e) ∧
        e.status = 502 ∧ e.code = "UPSTREAM_INVALID_RESPONSE") ∧
    (∀ v, parseOutcome = Except.ok v → v ≠ Js.null →
      (∀ xs, jsFieldAccess v "flashcards" ≠ Except.ok (some (Js.arr xs))) →
      flashcardsFromParse parseOutcome = Except.ok []) ∧
    (parseOutcome = Except.ok Js.null →
      flashcardsFromParse parseOutcome = Except.error (Thrown.other Js.null) ∧
      (normalizeError (Thrown.other Js.null)).status = 500 ∧
      (normalizeError (Thrown.other Js.null)).body.error.code
        = "INTERNAL_ERROR") := by
  refine ⟨?_, ?_, ?_⟩
  · rintro rfl
    exact ⟨⟨502, "UPSTREAM_INVALID_RESPONSE",
      "Invalid flashcards payload from OpenAI.", none, none⟩, rfl, rfl, rfl⟩
  · rintro v rfl hnn hna
    cases v with
    | null => exact absurd rfl hnn
    | boolean b => simp [flashcardsFromParse, jsFieldAccess]
    | num n => simp [flashcardsFromParse, jsFieldAccess]
    | str s => simp [flashcardsFromParse, jsFieldAccess]
    | arr xs => simp [flashcardsFromParse, jsFieldAccess]
    | obj fields =>
      rw [flashcardsFromParse]
      cases hf : lookupKey "flashcards" fields with
      | none => simp [jsFieldAccess, hf]
      | some w =>
        cases w with
        | arr xs => exact absurd (by simp [jsFieldAccess, hf]) (hna xs)
        | null => simp [jsFieldAccess, hf]
        | boolean b => simp [jsFieldAccess, hf]
        | num n => simp [jsFieldAccess, hf]
        | str s => simp [jsFieldAccess, hf]
        | obj gs => simp [jsFieldAccess, hf]
  · rintro rfl
    exact ⟨rfl, rfl, rfl⟩

/-- C8 amended witness: a parse failure is a 502
`UPSTREAM_INVALID_RESPONSE`; a parsed object whose `flashcards` field is
a string yields the empty list; a parsed `null` fails as the thrown
`TypeError`. -/
theorem flashcardsFromParse_spec_witness :
    (∃ e, flashcardsFromParse (Except.error ()) = Except.error (Thrown.api e) ∧
        e.status = 502 ∧ e.code = "UPSTREAM_INVALID_RESPONSE") ∧
      flashcardsFromParse (Except.ok (Js.obj [("flashcards", Js.str "x")]))
        = Except.ok [] ∧
      flashcardsFromParse (Except.ok Js.null)
        = Except.error (Thrown.other Js.null) := by
  refine ⟨?_, ?_, ?_⟩
  · exact (flashcardsFromParse_spec (Except.error ())).1 rfl
  · exact (flashcardsFromParse_spec
      (Except.ok (Js.obj [("flashcards", Js.str "x")]))).2.1 _ rfl
      (fun h => Js.noConfusion h)
      (by intro xs h; simp [jsFieldAccess, lookupKey] at h)
  · exact ((flashcardsFromParse_spec (Except.ok Js.null)).2.2 rfl).1

end Stepruapp
